import Mathlib

/-!
Shallow embedding of the `colorspaces` crate.

Sources embedded:
- `src/colorspace/mod.rs`: the parameter enumerations (`Luminance`, `Primaries`,
  `Differencing`, `Whitepoint`, `Transfer`), the per-variant payload structs, and
  the `ColorSpace` tagged union.
- `src/preset.rs`: the `SRGB` preset constant.
- `src/image.rs`: `Image`, its metadata types, and the `width`/`height` accessors.

The conversion engine (spec section 4.4) is not present in `src/`; the parts of
it needed by the claims are modelled from the spec, with the unspecified numeric
tables kept as an explicit parameter.
-/

/-- Embeds `enum Luminance` (src/colorspace/mod.rs lines 89-114): a reference
luminance with variants Sdr, Hdr, AdobeRgb, DciP3. -/
inductive Luminance
  | Sdr
  | Hdr
  | AdobeRgb
  | DciP3
deriving DecidableEq

/-- Embeds `enum Primaries` (src/colorspace/mod.rs lines 119-143), in source
order: Xyz, Bt601_525, Bt601_625, Bt709, Smpte240, Bt2020, Bt2100. -/
inductive Primaries
  | Xyz
  | Bt601_525
  | Bt601_625
  | Bt709
  | Smpte240
  | Bt2020
  | Bt2100
deriving DecidableEq

/-- Embeds `enum Differencing` (src/colorspace/mod.rs lines 150-192). -/
inductive Differencing
  | Bt407MPal
  | Bt407MPalPrecise
  | Bt601
  | Bt601Quantized
  | Bt601FullSwing
  | Bt709
  | Bt709Quantized
  | Bt709FullSwing
  | YDbDr
  | Bt2020
  | Bt2100
  | YCoCg
deriving DecidableEq

/-- Embeds `enum Whitepoint` (src/colorspace/mod.rs lines 199-211). -/
inductive Whitepoint
  | A
  | B
  | C
  | D50
  | D55
  | D65
  | D75
  | E
  | F2
  | F7
  | F11
deriving DecidableEq

/-- Embeds `enum Transfer` (src/colorspace/mod.rs lines 219-252), in source
order. -/
inductive Transfer
  | Bt709
  | Bt470M
  | Bt601
  | Smpte240
  | Linear
  | Srgb
  | Bt2020_10bit
  | Bt2020_12bit
  | Smpte2084
  | Bt2100Pq
  | Bt2100Hlg
  | Bt2100Scene
deriving DecidableEq

/-- Embeds `struct XyzColorSpace {}` (src/colorspace/mod.rs line 258). -/
structure XyzColorSpace where
deriving DecidableEq

/-- Embeds `struct UvwColorSpace {}` (src/colorspace/mod.rs line 264). -/
structure UvwColorSpace where
deriving DecidableEq

/-- Embeds `struct LuvColorSpace {}` (src/colorspace/mod.rs line 270). -/
structure LuvColorSpace where
deriving DecidableEq

/-- Embeds `struct LabColorSpace {}` (src/colorspace/mod.rs line 276). -/
structure LabColorSpace where
deriving DecidableEq

/-- Embeds `struct HsluvColorSpace {}` (src/colorspace/mod.rs line 282). -/
structure HsluvColorSpace where
deriving DecidableEq

/-- Embeds `struct OklabColorSpace {}` (src/colorspace/mod.rs line 288). -/
structure OklabColorSpace where
deriving DecidableEq

/-- Embeds `struct RgbColorSpace` (src/colorspace/mod.rs lines 294-299): fields
primaries, transfer, whitepoint, luminance. -/
structure RgbColorSpace where
  primaries : Primaries
  transfer : Transfer
  whitepoint : Whitepoint
  luminance : Luminance
deriving DecidableEq

/-- Embeds `struct YuvColorSpace` (src/colorspace/mod.rs lines 305-311): fields
primary, whitepoint, transfer, luminance, differencing. -/
structure YuvColorSpace where
  primary : Primaries
  whitepoint : Whitepoint
  transfer : Transfer
  luminance : Luminance
  differencing : Differencing
deriving DecidableEq

/-- Embeds `struct CmykColorSpace {}` (src/colorspace/mod.rs line 317). -/
structure CmykColorSpace where
deriving DecidableEq

/-- Embeds `struct CmyColorSpace {}` (src/colorspace/mod.rs line 323). -/
structure CmyColorSpace where
deriving DecidableEq

/-- Embeds `struct YcbcrColorSpace {}` (src/colorspace/mod.rs line 329). -/
structure YcbcrColorSpace where
deriving DecidableEq

/-- Embeds `struct YpbprColorSpace {}` (src/colorspace/mod.rs line 335). -/
structure YpbprColorSpace where
deriving DecidableEq

/-- Embeds `struct YdbdrColorSpace {}` (src/colorspace/mod.rs line 341). -/
structure YdbdrColorSpace where
deriving DecidableEq

/-- Embeds `struct YiqColorSpace {}` (src/colorspace/mod.rs line 347). -/
structure YiqColorSpace where
deriving DecidableEq

/-- Embeds `struct XvyccColorSpace {}` (src/colorspace/mod.rs line 353). -/
structure XvyccColorSpace where
deriving DecidableEq

/-- Embeds `struct SyccColorSpace {}` (src/colorspace/mod.rs line 359). -/
structure SyccColorSpace where
deriving DecidableEq

/-- Embeds `struct HsvColorSpace {}` (src/colorspace/mod.rs line 365). -/
structure HsvColorSpace where
deriving DecidableEq

/-- Embeds `struct HslColorSpace {}` (src/colorspace/mod.rs line 371). -/
structure HslColorSpace where
deriving DecidableEq

/-- Embeds `enum ColorSpace` (src/colorspace/mod.rs lines 9-82): the tagged
union of color spaces, in source order. -/
inductive ColorSpace
  | Xyz : XyzColorSpace → ColorSpace
  | Uvw : UvwColorSpace → ColorSpace
  | Luv : LuvColorSpace → ColorSpace
  | Lab : LabColorSpace → ColorSpace
  | Hsluv : HsluvColorSpace → ColorSpace
  | Oklab : OklabColorSpace → ColorSpace
  | Rgb : RgbColorSpace → ColorSpace
  | Yuv : YuvColorSpace → ColorSpace
  | Cmyk : CmykColorSpace → ColorSpace
  | Cmy : CmyColorSpace → ColorSpace
  | Ycbcr : YcbcrColorSpace → ColorSpace
  | Ypbpr : YpbprColorSpace → ColorSpace
  | Ydbdr : YdbdrColorSpace → ColorSpace
  | Yiq : YiqColorSpace → ColorSpace
  | Xvycc : XvyccColorSpace → ColorSpace
  | Sycc : SyccColorSpace → ColorSpace
  | Hsv : HsvColorSpace → ColorSpace
  | Hsl : HslColorSpace → ColorSpace
deriving DecidableEq

/-- The variant name of a `ColorSpace` value, as spelled in the Rust source. -/
def ColorSpace.variantName : ColorSpace → String
  | .Xyz _ => "Xyz"
  | .Uvw _ => "Uvw"
  | .Luv _ => "Luv"
  | .Lab _ => "Lab"
  | .Hsluv _ => "Hsluv"
  | .Oklab _ => "Oklab"
  | .Rgb _ => "Rgb"
  | .Yuv _ => "Yuv"
  | .Cmyk _ => "Cmyk"
  | .Cmy _ => "Cmy"
  | .Ycbcr _ => "Ycbcr"
  | .Ypbpr _ => "Ypbpr"
  | .Ydbdr _ => "Ydbdr"
  | .Yiq _ => "Yiq"
  | .Xvycc _ => "Xvycc"
  | .Sycc _ => "Sycc"
  | .Hsv _ => "Hsv"
  | .Hsl _ => "Hsl"

/-- The list of variant names of `enum ColorSpace` (src/colorspace/mod.rs lines
9-82), in source order. -/
def ColorSpace.variantNames : List String :=
  ["Xyz", "Uvw", "Luv", "Lab", "Hsluv", "Oklab", "Rgb", "Yuv", "Cmyk", "Cmy",
   "Ycbcr", "Ypbpr", "Ydbdr", "Yiq", "Xvycc", "Sycc", "Hsv", "Hsl"]

/-- The traits a Rust type may derive, as far as relevant here. -/
inductive Trait
  | Debug
  | Copy
  | Clone
  | PartialEq
  | Eq
  | PartialOrd
  | Ord
  | Hash
deriving DecidableEq, BEq

/-- The derive list on `enum ColorSpace` (src/colorspace/mod.rs line 7):
`#[derive(Debug, Copy, Clone, PartialEq, Eq, PartialOrd, Ord)]`. -/
def ColorSpace.derivedTraits : List Trait :=
  [.Debug, .Copy, .Clone, .PartialEq, .Eq, .PartialOrd, .Ord]

/-- Structural comparison of two `ColorSpace` values: same variant tag and all
embedded parameters pairwise equal.  This is what Rust's
`#[derive(PartialEq)]` generates for `ColorSpace` and its payload structs. -/
def ColorSpace.structEq : ColorSpace → ColorSpace → Bool
  | .Xyz _, .Xyz _ => true
  | .Uvw _, .Uvw _ => true
  | .Luv _, .Luv _ => true
  | .Lab _, .Lab _ => true
  | .Hsluv _, .Hsluv _ => true
  | .Oklab _, .Oklab _ => true
  | .Rgb a, .Rgb b =>
      decide (a.primaries = b.primaries) && decide (a.transfer = b.transfer) &&
      decide (a.whitepoint = b.whitepoint) && decide (a.luminance = b.luminance)
  | .Yuv a, .Yuv b =>
      decide (a.primary = b.primary) && decide (a.whitepoint = b.whitepoint) &&
      decide (a.transfer = b.transfer) && decide (a.luminance = b.luminance) &&
      decide (a.differencing = b.differencing)
  | .Cmyk _, .Cmyk _ => true
  | .Cmy _, .Cmy _ => true
  | .Ycbcr _, .Ycbcr _ => true
  | .Ypbpr _, .Ypbpr _ => true
  | .Ydbdr _, .Ydbdr _ => true
  | .Yiq _, .Yiq _ => true
  | .Xvycc _, .Xvycc _ => true
  | .Sycc _, .Sycc _ => true
  | .Hsv _, .Hsv _ => true
  | .Hsl _, .Hsl _ => true
  | _, _ => false

/-- Embeds `pub const SRGB: RgbColorSpace` (src/preset.rs lines 5-10). -/
def SRGB : RgbColorSpace :=
  { primaries := Primaries.Bt709
    transfer := Transfer.Srgb
    whitepoint := Whitepoint.D65
    luminance := Luminance.Sdr }

/-- Embeds `enum AlphaType` (src/image.rs lines 39-42). -/
inductive AlphaType
  | Straight
  | Premultiplied

/-- Embeds `enum ImageFileFormat` (src/image.rs lines 55-58). -/
inductive ImageFileFormat
  | Png
  | Jpeg

/-- Embeds `struct DecoderInfo` (src/image.rs lines 45-49). -/
structure DecoderInfo where
  file_format : ImageFileFormat
  decoder_name : String
  decoder_version : String

/-- Embeds `struct ImageMetadata` (src/image.rs lines 28-35); `u32`/`u64`
fields are embedded as `Nat` since they are only stored, never computed with. -/
structure ImageMetadata where
  color_space : Option ColorSpace
  alpha_type : Option AlphaType
  original_file_size : Option Nat
  original_image_dimensions : Option (Nat × Nat)
  file_modification_timestamp : Option Nat
  decoder_info : Option DecoderInfo

/-- Embeds `type Pixels<P> = Vec<Vec<P>>` (src/image.rs line 4): pixels in
row-column format. -/
def Pixels (P : Type) : Type := List (List P)

/-- Embeds `struct Image<P>` (src/image.rs lines 7-10). -/
structure Image (P : Type) where
  pixels : Pixels P
  metadata : ImageMetadata

/-- Embeds `Image::width` (src/image.rs lines 13-15): the length of the outer
pixel vector. -/
def Image.width {P : Type} (img : Image P) : Nat :=
  img.pixels.length

/-- Embeds `Image::height` (src/image.rs lines 17-23): `0` when the outer
vector is empty, otherwise `self.pixels[0].len()`; the match mirrors the
emptiness guard around the indexing. -/
def Image.height {P : Type} (img : Image P) : Nat :=
  match img.pixels with
  | [] => 0
  | row :: _ => row.length

/-- A sample: a fixed-size numeric triple.  The engine operates on `[f64; 3]`;
the claims settled here never exercise transcendental arithmetic, so the
numeric carrier is `ℚ`. -/
abbrev Sample : Type := ℚ × ℚ × ℚ

/-- Modelled from the spec: the error taxonomy of section 7 (the conversion
engine is absent from `src/`).  `Unsupported` carries the parameter kind;
`InvalidPairing` rejects structurally nonsensical conversions. -/
inductive ParamKind
  | transfer
  | primaries
  | differencing
deriving DecidableEq

/-- Modelled from the spec: `ConversionError` of section 4.4 / section 7. -/
inductive ConversionError
  | Unsupported : ParamKind → ConversionError
  | InvalidPairing : ConversionError
deriving DecidableEq

/-- Modelled from the spec: the transfer-function engine of section 4.2 is
absent from `src/`.  The spec flags `Bt2020_12bit`, `Smpte2084`, `Bt2100Pq`,
`Bt2100Hlg`, `Bt2100Scene` as not-yet-supported; every other variant is
implemented. -/
def Transfer.isSupported : Transfer → Bool
  | .Bt2020_12bit => false
  | .Smpte2084 => false
  | .Bt2100Pq => false
  | .Bt2100Hlg => false
  | .Bt2100Scene => false
  | _ => true

/-- The transfer parameter embedded in a `ColorSpace`, when its variant carries
one (only the Rgb and Yuv variants do). -/
def ColorSpace.transferOf : ColorSpace → Option Transfer
  | .Rgb r => some r.transfer
  | .Yuv y => some y.transfer
  | _ => none

/-- Whether every transfer parameter carried by the color space is supported
(vacuously true for variants that carry none). -/
def ColorSpace.transfersSupported (s : ColorSpace) : Bool :=
  match s.transferOf with
  | none => true
  | some t => t.isSupported

/-- Modelled from the spec: `convert` of section 4.4 is absent from `src/`.
Unsupported-transfer validation happens before any numeric work and fails with
an error value (sections 4.2, 4.4, 7); identity conversion returns the sample
exactly, with no adaptation and no matrix drift (section 8).  The numeric
matrix/transfer pipeline for distinct supported spaces relies on constant
tables the spec leaves to design data, so it is an explicit parameter. -/
def convert (pipeline : ColorSpace → ColorSpace → Sample → Sample)
    (src dst : ColorSpace) (sample : Sample) : Except ConversionError Sample :=
  if src.transfersSupported && dst.transfersSupported then
    if src = dst then Except.ok sample
    else Except.ok (pipeline src dst sample)
  else Except.error (ConversionError.Unsupported ParamKind.transfer)

/-- Whether a conversion result is a numeric result (an `ok`). -/
def isNumericResult : Except ConversionError Sample → Bool
  | .ok _ => true
  | .error _ => false

/-- C7: `Whitepoint` is a closed enumeration with exactly the variants A, B, C,
D50, D55, D65, D75, E, F2, F7, F11: each is constructible (each is a list
entry) and no other value exists. -/
theorem whitepoint_closed_enumeration :
    (∀ w : Whitepoint,
      w ∈ [Whitepoint.A, Whitepoint.B, Whitepoint.C, Whitepoint.D50,
           Whitepoint.D55, Whitepoint.D65, Whitepoint.D75, Whitepoint.E,
           Whitepoint.F2, Whitepoint.F7, Whitepoint.F11]) ∧
    [Whitepoint.A, Whitepoint.B, Whitepoint.C, Whitepoint.D50,
     Whitepoint.D55, Whitepoint.D65, Whitepoint.D75, Whitepoint.E,
     Whitepoint.F2, Whitepoint.F7, Whitepoint.F11].Nodup := by
  constructor
  · intro w
    cases w <;> decide
  · decide

/-- C8: `Primaries` is a closed enumeration with exactly the variants
Bt601_525, Bt601_625, Bt709, Smpte240, Bt2020, Bt2100, Xyz: each is
constructible (each is a list entry) and no other value exists. -/
theorem primaries_closed_enumeration :
    (∀ p : Primaries,
      p ∈ [Primaries.Bt601_525, Primaries.Bt601_625, Primaries.Bt709,
           Primaries.Smpte240, Primaries.Bt2020, Primaries.Bt2100,
           Primaries.Xyz]) ∧
    [Primaries.Bt601_525, Primaries.Bt601_625, Primaries.Bt709,
     Primaries.Smpte240, Primaries.Bt2020, Primaries.Bt2100,
     Primaries.Xyz].Nodup := by
  constructor
  · intro p
    cases p <;> decide
  · decide

/-- C10: the preset constant `SRGB` is structurally equal to the
`RgbColorSpace` with primaries Bt709, transfer Srgb, whitepoint D65 and
luminance Sdr. -/
theorem srgb_preset_value :
    SRGB = RgbColorSpace.mk Primaries.Bt709 Transfer.Srgb Whitepoint.D65
      Luminance.Sdr := rfl

/-- C4: every value of the RGB-family payload `RgbColorSpace` carries exactly
the four parameters primaries, transfer, whitepoint, luminance: the four
fields determine the value, and two values agree exactly when the four fields
agree pairwise. -/
theorem rgb_family_exactly_four_parameters :
    (∀ r : RgbColorSpace,
      r = RgbColorSpace.mk r.primaries r.transfer r.whitepoint r.luminance) ∧
    (∀ a b : RgbColorSpace,
      a = b ↔ (a.primaries = b.primaries ∧ a.transfer = b.transfer ∧
        a.whitepoint = b.whitepoint ∧ a.luminance = b.luminance)) := by
  constructor
  · intro r
    rfl
  · intro a b
    cases a
    cases b
    simp [and_assoc]

/-- C5: every value of the YUV-family payload `YuvColorSpace` carries exactly
the five parameters primary, whitepoint, transfer, luminance, differencing:
the five fields determine the value, and two values agree exactly when the
five fields agree pairwise. -/
theorem yuv_family_exactly_five_parameters :
    (∀ y : YuvColorSpace,
      y = YuvColorSpace.mk y.primary y.whitepoint y.transfer y.luminance
        y.differencing) ∧
    (∀ a b : YuvColorSpace,
      a = b ↔ (a.primary = b.primary ∧ a.whitepoint = b.whitepoint ∧
        a.transfer = b.transfer ∧ a.luminance = b.luminance ∧
        a.differencing = b.differencing)) := by
  constructor
  · intro y
    rfl
  · intro a b
    cases a
    cases b
    simp [and_assoc]

/-- C3 counterexample: `Hash` is not in the derive list of `ColorSpace`
(src/colorspace/mod.rs line 7 derives only Debug, Copy, Clone, PartialEq, Eq,
PartialOrd, Ord), so `ColorSpace` values cannot be hashed by a derived
structural implementation, contrary to the claim. -/
theorem colorspace_hash_not_derived :
    ColorSpace.derivedTraits.contains Trait.Hash = false := by decide

/-- C3 (amended): two `ColorSpace` values are equal exactly when they have the
same variant tag and all embedded parameters are pairwise equal (structural
equality), and the derive list provides structural `Eq` and `Ord` but no
`Hash` implementation. -/
theorem colorspace_equality_structural :
    (∀ a b : ColorSpace, a = b ↔ ColorSpace.structEq a b = true) ∧
    ColorSpace.derivedTraits.contains Trait.Eq = true ∧
    ColorSpace.derivedTraits.contains Trait.Hash = false := by
  refine ⟨?_, by decide, by decide⟩
  intro a b
  cases a <;> cases b <;>
    (try (rename_i pa pb; cases pa; cases pb)) <;>
    simp [ColorSpace.structEq, and_assoc]

/-- C6 counterexample: `"SrLab2"` is not among the variant names of
`enum ColorSpace` (src/colorspace/mod.rs lines 9-82): the tagged union has no
SrLab2 variant, contrary to the claim. -/
theorem colorspace_srlab2_absent :
    ColorSpace.variantNames.contains "SrLab2" = false := by decide

/-- C6 (amended): the variant names of `ColorSpace` are exactly the eighteen
Xyz, Uvw, Luv, Lab, Hsluv, Oklab, Rgb, Yuv, Cmyk, Cmy, Ycbcr, Ypbpr, Ydbdr,
Yiq, Xvycc, Sycc, Hsv, Hsl; SrLab2 is not one of them, so no variant carrying
only a Whitepoint exists under that name. -/
theorem colorspace_variant_names :
    (∀ s : ColorSpace, ColorSpace.variantNames.contains s.variantName = true) ∧
    ColorSpace.variantNames.length = 18 ∧
    ColorSpace.variantNames.contains "SrLab2" = false := by
  refine ⟨?_, by decide, by decide⟩
  intro s
  cases s <;> rfl

/-- C9: `Image.width` is the length of the outer pixel vector, and
`Image.height` is `0` on an empty outer vector and the length of the first
inner vector otherwise; both are total, the indexing being guarded by the
emptiness check. -/
theorem image_width_height_total {P : Type} (img : Image P) :
    img.width = img.pixels.length ∧
    (img.pixels = [] → img.height = 0) ∧
    (∀ (row : List P) (rest : List (List P)),
      img.pixels = row :: rest → img.height = row.length) := by
  refine ⟨rfl, ?_, ?_⟩
  · intro h
    simp [Image.height, h]
  · intro row rest h
    simp [Image.height, h]

/-- Witness for C9 at a concrete image: a single column of two pixels has
width 1 and height 2. -/
theorem image_width_height_total_witness :
    (Image.mk ([[5, 6]] : Pixels Nat)
      (ImageMetadata.mk none none none none none none)).width = 1 ∧
    (Image.mk ([[5, 6]] : Pixels Nat)
      (ImageMetadata.mk none none none none none none)).height = 2 := by
  refine ⟨(image_width_height_total _).1.trans rfl, ?_⟩
  exact (image_width_height_total
    (Image.mk ([[5, 6]] : Pixels Nat)
      (ImageMetadata.mk none none none none none none))).2.2 [5, 6] [] rfl

/-- C1: whenever the source or the destination color space carries a
not-yet-supported transfer, `convert` returns the explicit unsupported-transfer
error as a value — no numeric result, whatever the numeric pipeline is. -/
theorem convert_unsupported_transfer_rejected
    (pipeline : ColorSpace → ColorSpace → Sample → Sample)
    (src dst : ColorSpace) (sample : Sample)
    (h : (∃ t, src.transferOf = some t ∧ t.isSupported = false) ∨
         (∃ t, dst.transferOf = some t ∧ t.isSupported = false)) :
    convert pipeline src dst sample =
      Except.error (ConversionError.Unsupported ParamKind.transfer) ∧
    isNumericResult (convert pipeline src dst sample) = false := by
  have hcond : (src.transfersSupported && dst.transfersSupported) = false := by
    rcases h with ⟨t, ht, hsup⟩ | ⟨t, ht, hsup⟩ <;>
      simp [ColorSpace.transfersSupported, ht, hsup]
  refine ⟨?_, ?_⟩ <;> simp [convert, hcond, isNumericResult]

/-- Witness for C1: converting from Bt2100Pq-encoded RGB to the sRGB preset
space returns the unsupported-transfer error. -/
theorem convert_unsupported_transfer_rejected_witness :
    convert (fun _ _ v => v)
      (ColorSpace.Rgb (RgbColorSpace.mk Primaries.Bt709 Transfer.Bt2100Pq
        Whitepoint.D65 Luminance.Sdr))
      (ColorSpace.Rgb SRGB) ((0 : ℚ), (0 : ℚ), (0 : ℚ)) =
      Except.error (ConversionError.Unsupported ParamKind.transfer) :=
  (convert_unsupported_transfer_rejected (fun _ _ v => v)
    (ColorSpace.Rgb (RgbColorSpace.mk Primaries.Bt709 Transfer.Bt2100Pq
      Whitepoint.D65 Luminance.Sdr))
    (ColorSpace.Rgb SRGB) ((0 : ℚ), (0 : ℚ), (0 : ℚ))
    (Or.inl ⟨Transfer.Bt2100Pq, rfl, rfl⟩)).1

/-- C2 counterexample: for the constructible space S = Rgb with the
not-yet-supported Bt2100Pq transfer, `convert S S sample` does not return the
sample — it returns the unsupported-transfer error, as the unsupported-transfer
rejection demands on either side of any conversion. -/
theorem convert_identity_unsupported_counterexample :
    convert (fun _ _ v => v)
      (ColorSpace.Rgb (RgbColorSpace.mk Primaries.Bt709 Transfer.Bt2100Pq
        Whitepoint.D65 Luminance.Sdr))
      (ColorSpace.Rgb (RgbColorSpace.mk Primaries.Bt709 Transfer.Bt2100Pq
        Whitepoint.D65 Luminance.Sdr)) ((0 : ℚ), (0 : ℚ), (0 : ℚ)) =
      Except.error (ConversionError.Unsupported ParamKind.transfer) ∧
    isNumericResult (convert (fun _ _ v => v)
      (ColorSpace.Rgb (RgbColorSpace.mk Primaries.Bt709 Transfer.Bt2100Pq
        Whitepoint.D65 Luminance.Sdr))
      (ColorSpace.Rgb (RgbColorSpace.mk Primaries.Bt709 Transfer.Bt2100Pq
        Whitepoint.D65 Luminance.Sdr)) ((0 : ℚ), (0 : ℚ), (0 : ℚ))) =
      false := ⟨rfl, rfl⟩

/-- C2 (amended): for every constructible `ColorSpace` S whose transfer
parameter (if its variant carries one) is supported, `convert S S sample`
returns exactly the input sample, with no adaptation and no drift, whatever
the numeric pipeline is. -/
theorem convert_identity_exact
    (pipeline : ColorSpace → ColorSpace → Sample → Sample)
    (s : ColorSpace) (sample : Sample)
    (h : s.transfersSupported = true) :
    convert pipeline s s sample = Except.ok sample := by
  simp [convert, h]

/-- Witness for C2 (amended): identity conversion on the sRGB preset space
returns the sample unchanged. -/
theorem convert_identity_exact_witness :
    convert (fun _ _ v => v) (ColorSpace.Rgb SRGB) (ColorSpace.Rgb SRGB)
      ((1 : ℚ), (2 : ℚ), (3 : ℚ)) =
      Except.ok ((1 : ℚ), (2 : ℚ), (3 : ℚ)) :=
  convert_identity_exact (fun _ _ v => v) (ColorSpace.Rgb SRGB)
    ((1 : ℚ), (2 : ℚ), (3 : ℚ)) rfl
